import Mathlib

/-!
Shallow embedding of xen/arch/x86/hvm/svm/svm.c (AMD SVM exit handling).

Hardware-defined machine words are modelled as `Nat` with explicit masking
where the C code truncates (32-bit bitfields, 64-bit registers).  Pointers
to external subsystems (instruction-length decoding, p2m lookups, vlapic,
time) are passed in as explicit parameters so the functions stay pure.
-/

namespace Svm

/-! ### Architectural constants (values of the macros used by svm.c) -/

def X86_CR0_PE : Nat := 0x00000001
def X86_CR0_TS : Nat := 0x00000008
def X86_CR0_ET : Nat := 0x00000010
def X86_CR0_WP : Nat := 0x00010000
def X86_CR0_PG : Nat := 0x80000000

def X86_CR4_PAE : Nat := 0x00000020

def EFER_SVME : Nat := 0x1000
def EFER_LME : Nat := 0x100
def EFER_LMA : Nat := 0x400

def X86_EFLAGS_TF : Nat := 0x100
def X86_EFLAGS_RF : Nat := 0x10000

def TRAP_divide_error : Nat := 0
def TRAP_debug : Nat := 1
def TRAP_no_device : Nat := 7
def TRAP_double_fault : Nat := 8
def TRAP_invalid_tss : Nat := 10
def TRAP_no_segment : Nat := 11
def TRAP_stack_error : Nat := 12
def TRAP_gp_fault : Nat := 13
def TRAP_page_fault : Nat := 14

def X86_EVENTTYPE_HW_EXCEPTION : Nat := 3

def HVM_DELIVER_NO_ERROR_CODE : Int := -1

def X86EMUL_OKAY : Nat := 0
def X86EMUL_EXCEPTION : Nat := 2

def EINVAL : Int := 22

def PAGE_SHIFT : Nat := 12

def MSR_IA32_TSC : Nat := 0x10
def MSR_IA32_APICBASE : Nat := 0x1b
def MSR_IA32_EBC_FREQUENCY_ID : Nat := 0x2c
def MSR_IA32_MCG_CAP : Nat := 0x179
def MSR_IA32_MCG_STATUS : Nat := 0x17a
def MSR_IA32_DEBUGCTLMSR : Nat := 0x1d9
def MSR_IA32_LASTBRANCHFROMIP : Nat := 0x1db
def MSR_IA32_LASTBRANCHTOIP : Nat := 0x1dc
def MSR_IA32_LASTINTFROMIP : Nat := 0x1dd
def MSR_IA32_LASTINTTOIP : Nat := 0x1de
def MSR_IA32_MC0_STATUS : Nat := 0x401
def MSR_IA32_MC1_STATUS : Nat := 0x405
def MSR_IA32_MC2_STATUS : Nat := 0x409
def MSR_IA32_MC3_STATUS : Nat := 0x40d
def MSR_IA32_MC4_STATUS : Nat := 0x411
def MSR_IA32_MC4_MISC : Nat := 0x413
def MSR_IA32_MC5_STATUS : Nat := 0x415
def MSR_EFER : Nat := 0xc0000080
def MSR_F10_MC4_MISC1 : Nat := 0xc0000408
def MSR_F10_MC4_MISC2 : Nat := 0xc0000409
def MSR_F10_MC4_MISC3 : Nat := 0xc000040a
def MSR_K8_VM_HSAVE_PA : Nat := 0xc0010117

/-- `~x` on a 64-bit quantity: xor against an all-ones 64-bit word. -/
def not64 (x : Nat) : Nat := (2 ^ 64 - 1) ^^^ x

/-- `~x` on a 32-bit quantity. -/
def not32 (x : Nat) : Nat := (2 ^ 32 - 1) ^^^ x

/-- C `int` assigned into a 32-bit unsigned bitfield (two's complement). -/
def intToU32 (i : Int) : Nat := (i % (2 ^ 32 : Int)).toNat

/-! ### Hardware-layout structures -/

/-- The event-injection descriptor `eventinj_t` of the VMCB, kept as its
bitfields.  Bits: vector 0-7, type 8-10, ev 11, resvd1 12-30, v 31,
errorcode 32-63. -/
structure eventinj_t where
  vector : Nat
  type : Nat
  ev : Bool
  resvd1 : Nat
  v : Bool
  errorcode : Nat
deriving DecidableEq

/-- The raw 64-bit value of the union (`eventinj.bytes`). -/
def eventinj_t.bytes (e : eventinj_t) : Nat :=
  e.vector % 0x100 + e.type % 8 * 0x100 + (cond e.ev 1 0) * 0x800 +
  e.resvd1 % 0x80000 * 0x1000 + (cond e.v 1 0) * 0x80000000 +
  e.errorcode % 0x100000000 * 0x100000000

/-- Writing a 64-bit value to `eventinj.bytes` refills every bitfield. -/
def eventinj_t.ofBytes (b : Nat) : eventinj_t :=
  { vector := b % 0x100
    type := b / 0x100 % 8
    ev := b / 0x800 % 2 == 1
    resvd1 := b / 0x1000 % 0x80000
    v := b / 0x80000000 % 2 == 1
    errorcode := b / 0x100000000 % 0x100000000 }

/-- The fields of `struct vmcb_struct` that svm.c reads or writes. -/
structure vmcb_struct where
  cr0 : Nat
  cr2 : Nat
  cr3 : Nat
  cr4 : Nat
  efer : Nat
  dr6 : Nat
  dr7 : Nat
  dr_intercepts : Nat
  exception_intercepts : Nat
  eventinj : eventinj_t
  interrupt_shadow : Nat
  sysenter_cs : Nat
  sysenter_esp : Nat
  sysenter_eip : Nat
  np_enable : Nat
  g_pat : Nat
  h_cr3 : Nat
  exitinfo1 : Nat
  exitinfo2 : Nat
  debugctlmsr : Nat
  lastbranchfromip : Nat
  lastbranchtoip : Nat
  lastintfromip : Nat
  lastinttoip : Nat
  lbr_control_enable : Bool
deriving DecidableEq

/-- Per-vcpu state touched by svm.c: the VMCB, the canonical register
copies in `v->arch.hvm_vcpu` / `v->arch.guest_context`, the lazy
debug-register latch, and the physical debug registers of the core the
vcpu runs on (`read_debugreg`/`write_debugreg`).  `is_current` models the
`v == current` test, `hap` models `paging_mode_hap(v->domain)`, `crashed`
records a `domain_crash` call, and `fpu_setup` records a `setup_fpu`
call. -/
structure vcpu where
  vmcb : vmcb_struct
  guest_cr0 : Nat
  guest_cr2 : Nat
  guest_cr3 : Nat
  guest_cr4 : Nat
  hw_cr3 : Nat
  guest_efer : Nat
  guest_table : Nat
  flag_dr_dirty : Nat
  debugreg0 : Nat
  debugreg1 : Nat
  debugreg2 : Nat
  debugreg3 : Nat
  debugreg6 : Nat
  debugreg7 : Nat
  hw_dr0 : Nat
  hw_dr1 : Nat
  hw_dr2 : Nat
  hw_dr3 : Nat
  fpu_setup : Bool
  is_current : Bool
  hap : Bool
  crashed : Bool
  msr_intercept_disabled : List Nat
deriving DecidableEq

/-- The guest register file fields used by the modelled handlers. -/
structure cpu_user_regs where
  eip : Nat
  eflags : Nat
  eax : Nat
  ebx : Nat
  ecx : Nat
  edx : Nat
  error_code : Nat
deriving DecidableEq

/-- The persisted save/restore record `struct hvm_hw_cpu` (the fields
svm_vmcb_save/svm_vmcb_restore touch).  `pending_event` is the raw
32-bit union word whose bitfields are the accessors below. -/
structure hvm_hw_cpu where
  cr0 : Nat
  cr2 : Nat
  cr3 : Nat
  cr4 : Nat
  sysenter_cs : Nat
  sysenter_esp : Nat
  sysenter_eip : Nat
  pending_event : Nat
  error_code : Nat
deriving DecidableEq

def hvm_hw_cpu.pending_vector (c : hvm_hw_cpu) : Nat :=
  c.pending_event % 0x100

def hvm_hw_cpu.pending_type (c : hvm_hw_cpu) : Nat :=
  c.pending_event / 0x100 % 8

def hvm_hw_cpu.pending_error_valid (c : hvm_hw_cpu) : Nat :=
  c.pending_event / 0x800 % 2

def hvm_hw_cpu.pending_reserved (c : hvm_hw_cpu) : Nat :=
  c.pending_event / 0x1000 % 0x80000

def hvm_hw_cpu.pending_valid (c : hvm_hw_cpu) : Bool :=
  c.pending_event / 0x80000000 % 2 == 1

/-! ### State projection -/

/-- `svm_fpu_enter`: `setup_fpu` (external) plus unmasking the
no-device-exception intercept. -/
def svm_fpu_enter (v : vcpu) : vcpu :=
  { v with
    fpu_setup := true
    vmcb := { v.vmcb with
      exception_intercepts :=
        v.vmcb.exception_intercepts &&& not32 (2 ^ TRAP_no_device) } }

/-- `svm_update_guest_cr`.  `hvm_cr4_host_mask` stands for the
`HVM_CR4_HOST_MASK` macro, a host-mandated constant defined outside this
file's source.  The `cr = 3` case also requests an ASID invalidation from
the external ASID subsystem (no modelled state).  The `default` case is
`BUG()`. -/
def svm_update_guest_cr (hvm_cr4_host_mask : Nat) (v : vcpu) (cr : Nat) : vcpu :=
  match cr with
  | 0 =>
    let hw_cr0_mask : Nat :=
      if v.guest_cr0 &&& X86_CR0_TS = 0 ∧ v.is_current = false
      then X86_CR0_TS else 0
    let v1 :=
      if v.guest_cr0 &&& X86_CR0_TS = 0 ∧ v.is_current = true ∧
         v.vmcb.cr0 &&& X86_CR0_TS ≠ 0
      then svm_fpu_enter v else v
    let c0 := v.guest_cr0 ||| hw_cr0_mask
    let c0h := if v.hap = true then c0 else c0 ||| (X86_CR0_PG ||| X86_CR0_WP)
    { v1 with vmcb := { v1.vmcb with cr0 := c0h } }
  | 2 => { v with vmcb := { v.vmcb with cr2 := v.guest_cr2 } }
  | 3 => { v with vmcb := { v.vmcb with cr3 := v.hw_cr3 } }
  | 4 =>
    let c4 := hvm_cr4_host_mask
    let c4h := if v.hap = true then c4 &&& not64 X86_CR4_PAE else c4
    { v with vmcb := { v.vmcb with cr4 := c4h ||| v.guest_cr4 } }
  | _ => v

/-- `svm_update_guest_efer`. -/
def svm_update_guest_efer (v : vcpu) : vcpu :=
  let e := (v.guest_efer ||| EFER_SVME) &&& not64 EFER_LME
  let e2 := if e &&& EFER_LMA ≠ 0 then e ||| EFER_LME else e
  { v with vmcb := { v.vmcb with efer := e2 } }

/-- `svm_save_dr`. -/
def svm_save_dr (v : vcpu) : vcpu :=
  if v.flag_dr_dirty = 0 then v
  else
    { v with
      flag_dr_dirty := 0
      vmcb := { v.vmcb with dr_intercepts := 2 ^ 32 - 1 }
      debugreg0 := v.hw_dr0
      debugreg1 := v.hw_dr1
      debugreg2 := v.hw_dr2
      debugreg3 := v.hw_dr3
      debugreg6 := v.vmcb.dr6
      debugreg7 := v.vmcb.dr7 }

/-- `__restore_debug_registers`. -/
def __restore_debug_registers (v : vcpu) : vcpu :=
  if v.flag_dr_dirty ≠ 0 then v
  else
    { v with
      flag_dr_dirty := 1
      vmcb := { v.vmcb with
        dr_intercepts := 0
        dr6 := v.debugreg6
        dr7 := v.debugreg7 }
      hw_dr0 := v.debugreg0
      hw_dr1 := v.debugreg1
      hw_dr2 := v.debugreg2
      hw_dr3 := v.debugreg3 }

/-! ### Event injection -/

/-- Vectors of the contributory class in the x86 exception-escalation
table. -/
def isContributory (vec : Nat) : Bool :=
  vec == TRAP_divide_error || vec == TRAP_invalid_tss ||
  vec == TRAP_no_segment || vec == TRAP_stack_error || vec == TRAP_gp_fault

/-- Modelled from the spec: `hvm_combine_hw_exceptions` lives in a header
outside this file's source.  Per the spec, a pending hardware exception
and a newly injected one "are combined under the standard
exception-escalation table (e.g., two contributory faults become a double
fault)", and a pending contributory fault followed by a page fault also
yields a double fault; otherwise the new event simply overwrites the
slot, so the second vector is returned. -/
def hvm_combine_hw_exceptions (vec1 vec2 : Nat) : Nat :=
  if (isContributory vec1 || vec1 == TRAP_page_fault) &&
     (isContributory vec2 || vec2 == TRAP_page_fault)
  then TRAP_double_fault
  else vec2

/-- `svm_inject_exception`. -/
def svm_inject_exception (curr : vcpu) (regs : cpu_user_regs)
    (trapnr0 : Nat) (errcode0 : Int) (cr2 : Nat) : vcpu :=
  let event0 := curr.vmcb.eventinj
  let escalate := event0.v && (event0.type == X86_EVENTTYPE_HW_EXCEPTION)
  let trapnr :=
    if escalate then hvm_combine_hw_exceptions event0.vector trapnr0
    else trapnr0
  let errcode :=
    if escalate && (trapnr == TRAP_double_fault) then 0 else errcode0
  let event : eventinj_t :=
    { vector := trapnr % 0x100
      type := X86_EVENTTYPE_HW_EXCEPTION
      ev := decide (errcode ≠ HVM_DELIVER_NO_ERROR_CODE)
      resvd1 := 0
      v := true
      errorcode := intToU32 errcode }
  let v1 := { curr with vmcb := { curr.vmcb with eventinj := event } }
  let v2 :=
    if trapnr = TRAP_page_fault then
      { v1 with vmcb := { v1.vmcb with cr2 := cr2 }, guest_cr2 := cr2 }
    else v1
  if trapnr = TRAP_debug ∧ regs.eflags &&& X86_EFLAGS_TF ≠ 0 then
    let v3 := __restore_debug_registers v2
    { v3 with vmcb := { v3.vmcb with dr6 := v3.vmcb.dr6 ||| 0x4000 } }
  else v2

/-- `__update_guest_eip`.  Registers are 64-bit, so the instruction
pointer wraps modulo `2^64`. -/
def __update_guest_eip (curr : vcpu) (regs : cpu_user_regs)
    (inst_len : Nat) : vcpu × cpu_user_regs :=
  if inst_len = 0 ∨ 15 < inst_len then
    ({ curr with crashed := true }, regs)
  else
    let regs1 := { regs with
      eip := (regs.eip + inst_len) % 2 ^ 64
      eflags := regs.eflags &&& not64 X86_EFLAGS_RF }
    let v1 := { curr with vmcb := { curr.vmcb with interrupt_shadow := 0 } }
    if regs1.eflags &&& X86_EFLAGS_TF ≠ 0 then
      (svm_inject_exception v1 regs1 TRAP_debug HVM_DELIVER_NO_ERROR_CODE 0,
       regs1)
    else (v1, regs1)

/-! ### Live state capture / restore -/

/-- `svm_vmcb_save`.  `hvm_event_needs_reinjection` is an external
predicate (declared in a header outside this file's source), so it is
taken as a parameter `needs_reinj type vector`.  The C function never
writes through `v`, so the vcpu is returned unchanged; the `Nat` is the
C return value. -/
def svm_vmcb_save (needs_reinj : Nat → Nat → Bool) (v : vcpu)
    (c : hvm_hw_cpu) : vcpu × hvm_hw_cpu × Nat :=
  let c1 := { c with
    cr0 := v.guest_cr0
    cr2 := v.guest_cr2
    cr3 := v.guest_cr3
    cr4 := v.guest_cr4
    sysenter_cs := v.vmcb.sysenter_cs
    sysenter_esp := v.vmcb.sysenter_esp
    sysenter_eip := v.vmcb.sysenter_eip
    pending_event := 0
    error_code := 0 }
  let c2 :=
    if v.vmcb.eventinj.v &&
       needs_reinj v.vmcb.eventinj.type v.vmcb.eventinj.vector then
      { c1 with
        pending_event := v.vmcb.eventinj.bytes % 0x100000000
        error_code := v.vmcb.eventinj.errorcode % 0x100000000 }
    else c1
  (v, c2, 1)

/-- `svm_vmcb_restore`.  External collaborators become parameters:
`needs_reinj` as above; `p2m gfn` is `gfn_to_mfn` combined with the
`p2m_is_ram`/`get_page` test (`none` on failure); `phys_table_paddr` is
`pagetable_get_paddr(v->domain->arch.phys_table)`;
`hvm_cr4_host_mask` as in `svm_update_guest_cr`.  Returns the C return
value and the updated vcpu. -/
def svm_vmcb_restore (needs_reinj : Nat → Nat → Bool)
    (p2m : Nat → Option Nat) (phys_table_paddr : Nat)
    (hvm_cr4_host_mask : Nat) (v : vcpu) (c : hvm_hw_cpu) : Int × vcpu :=
  if c.pending_valid = true ∧
     (c.pending_type = 1 ∨ 6 < c.pending_type ∨ c.pending_reserved ≠ 0) then
    (-EINVAL, v)
  else
    let mfnOpt : Option Nat :=
      if v.hap = true then some 0
      else if c.cr0 &&& X86_CR0_PG ≠ 0 then p2m (c.cr3 / 2 ^ PAGE_SHIFT)
      else some 0
    match mfnOpt with
    | none => (-EINVAL, v)
    | some mfn =>
      let v1 := if v.hap = true then v else { v with guest_table := mfn }
      let v2 := { v1 with
        guest_cr0 := c.cr0 ||| X86_CR0_ET
        guest_cr2 := c.cr2
        guest_cr3 := c.cr3
        guest_cr4 := c.cr4 }
      let v3 := svm_update_guest_cr hvm_cr4_host_mask v2 0
      let v4 := svm_update_guest_cr hvm_cr4_host_mask v3 2
      let v5 := svm_update_guest_cr hvm_cr4_host_mask v4 4
      let v6 := { v5 with vmcb := { v5.vmcb with
        sysenter_cs := c.sysenter_cs
        sysenter_esp := c.sysenter_esp
        sysenter_eip := c.sysenter_eip } }
      let v7 :=
        if v6.hap = true then
          { v6 with vmcb := { v6.vmcb with
            np_enable := 1
            g_pat := 0x0007040600070406
            h_cr3 := phys_table_paddr } }
        else v6
      let v8 :=
        if c.pending_valid &&
           needs_reinj c.pending_type c.pending_vector then
          { v7 with vmcb := { v7.vmcb with eventinj :=
            { eventinj_t.ofBytes (c.pending_event % 0x100000000) with
              errorcode := c.error_code % 0x100000000 } } }
        else v7
      (0, v8)

/-! ### MSR interception -/

/-- External collaborators of the MSR paths, as explicit data: the time
subsystem, the vlapic, the generic `rdmsr_hypervisor_regs`/`rdmsr_safe`
fallbacks, `hvm_set_efer` (fails with an injected fault when the value
is invalid), the LBR capability bit, and the instruction-length decoder
results for RDMSR/WRMSR. -/
structure msr_env where
  guest_time : Nat
  apic_base : Nat
  rdmsr_hypervisor_regs : Nat → Option (Nat × Nat)
  rdmsr_safe : Nat → Option (Nat × Nat)
  hvm_set_efer : vcpu → Nat → Bool × vcpu
  cpu_has_svm_lbrv : Bool
  rdmsr_inst_len : Nat
  wrmsr_inst_len : Nat

/-- Common tail of `svm_msr_read_intercept`:
`regs->eax = lo32; regs->edx = hi32`. -/
def setMsrResult (regs : cpu_user_regs) (content : Nat) : cpu_user_regs :=
  { regs with
    eax := content &&& 0xffffffff
    edx := content >>> 32 }

/-- `svm_msr_read_intercept`.  Result is `(rc, vcpu, regs)`. -/
def svm_msr_read_intercept (env : msr_env) (v : vcpu)
    (regs : cpu_user_regs) : Nat × vcpu × cpu_user_regs :=
  let ecx := regs.ecx
  if ecx = MSR_IA32_TSC then
    (X86EMUL_OKAY, v, setMsrResult regs env.guest_time)
  else if ecx = MSR_IA32_APICBASE then
    (X86EMUL_OKAY, v, setMsrResult regs env.apic_base)
  else if ecx = MSR_EFER then
    (X86EMUL_OKAY, v, setMsrResult regs v.guest_efer)
  else if ecx = MSR_IA32_MC4_MISC ∨
          (MSR_F10_MC4_MISC1 ≤ ecx ∧ ecx ≤ MSR_F10_MC4_MISC3) then
    (X86EMUL_OKAY, v, setMsrResult regs (2 ^ 61))
  else if ecx = MSR_IA32_EBC_FREQUENCY_ID then
    (X86EMUL_OKAY, v, setMsrResult regs 0)
  else if ecx = MSR_K8_VM_HSAVE_PA then
    (X86EMUL_EXCEPTION, svm_inject_exception v regs TRAP_gp_fault 0 0, regs)
  else if ecx = MSR_IA32_MCG_CAP ∨ ecx = MSR_IA32_MCG_STATUS ∨
          ecx = MSR_IA32_MC0_STATUS ∨ ecx = MSR_IA32_MC1_STATUS ∨
          ecx = MSR_IA32_MC2_STATUS ∨ ecx = MSR_IA32_MC3_STATUS ∨
          ecx = MSR_IA32_MC4_STATUS ∨ ecx = MSR_IA32_MC5_STATUS then
    (X86EMUL_OKAY, v, setMsrResult regs 0)
  else if ecx = MSR_IA32_DEBUGCTLMSR then
    (X86EMUL_OKAY, v, setMsrResult regs v.vmcb.debugctlmsr)
  else if ecx = MSR_IA32_LASTBRANCHFROMIP then
    (X86EMUL_OKAY, v, setMsrResult regs v.vmcb.lastbranchfromip)
  else if ecx = MSR_IA32_LASTBRANCHTOIP then
    (X86EMUL_OKAY, v, setMsrResult regs v.vmcb.lastbranchtoip)
  else if ecx = MSR_IA32_LASTINTFROMIP then
    (X86EMUL_OKAY, v, setMsrResult regs v.vmcb.lastintfromip)
  else if ecx = MSR_IA32_LASTINTTOIP then
    (X86EMUL_OKAY, v, setMsrResult regs v.vmcb.lastinttoip)
  else
    match env.rdmsr_hypervisor_regs ecx with
    | some (a, d) => (X86EMUL_OKAY, v, { regs with eax := a, edx := d })
    | none =>
      match env.rdmsr_safe ecx with
      | some (a, d) => (X86EMUL_OKAY, v, { regs with eax := a, edx := d })
      | none =>
        (X86EMUL_EXCEPTION,
         svm_inject_exception v regs TRAP_gp_fault 0 0, regs)

/-- `long_mode_do_msr_write` outcome codes. -/
inductive handler_return where
  | HNDL_done
  | HNDL_unhandled
  | HNDL_exception_raised
deriving DecidableEq

/-- `long_mode_do_msr_write`. -/
def long_mode_do_msr_write (env : msr_env) (v : vcpu)
    (regs : cpu_user_regs) : handler_return × vcpu :=
  let msr_content :=
    (regs.eax &&& 0xffffffff) ||| ((regs.edx &&& 0xffffffff) <<< 32)
  if regs.ecx = MSR_EFER then
    let r := env.hvm_set_efer v msr_content
    if r.1 then (handler_return.HNDL_exception_raised, r.2)
    else (handler_return.HNDL_done, r.2)
  else if regs.ecx = MSR_IA32_MC4_MISC ∨
          (MSR_F10_MC4_MISC1 ≤ regs.ecx ∧ regs.ecx ≤ MSR_F10_MC4_MISC3) then
    (handler_return.HNDL_done, v)
  else
    (handler_return.HNDL_unhandled, v)

/-- `svm_msr_write_intercept`.  Result is `(rc, vcpu)`.  The TSC and
APIC-base cases act only on external subsystems (time, vlapic), leaving
the modelled state unchanged. -/
def svm_msr_write_intercept (env : msr_env) (v : vcpu)
    (regs : cpu_user_regs) : Nat × vcpu :=
  let ecx := regs.ecx
  let msr_content :=
    (regs.eax &&& 0xffffffff) ||| ((regs.edx &&& 0xffffffff) <<< 32)
  if ecx = MSR_IA32_TSC then
    (X86EMUL_OKAY, v)
  else if ecx = MSR_IA32_APICBASE then
    (X86EMUL_OKAY, v)
  else if ecx = MSR_K8_VM_HSAVE_PA then
    (X86EMUL_EXCEPTION, svm_inject_exception v regs TRAP_gp_fault 0 0)
  else if ecx = MSR_IA32_DEBUGCTLMSR then
    let v1 := { v with vmcb := { v.vmcb with debugctlmsr := msr_content } }
    if msr_content = 0 ∨ env.cpu_has_svm_lbrv = false then
      (X86EMUL_OKAY, v1)
    else
      (X86EMUL_OKAY,
       { v1 with
         vmcb := { v1.vmcb with lbr_control_enable := true }
         msr_intercept_disabled := v1.msr_intercept_disabled ++
           [MSR_IA32_DEBUGCTLMSR, MSR_IA32_LASTBRANCHFROMIP,
            MSR_IA32_LASTBRANCHTOIP, MSR_IA32_LASTINTFROMIP,
            MSR_IA32_LASTINTTOIP] })
  else if ecx = MSR_IA32_LASTBRANCHFROMIP then
    (X86EMUL_OKAY, { v with vmcb := { v.vmcb with lastbranchfromip := msr_content } })
  else if ecx = MSR_IA32_LASTBRANCHTOIP then
    (X86EMUL_OKAY, { v with vmcb := { v.vmcb with lastbranchtoip := msr_content } })
  else if ecx = MSR_IA32_LASTINTFROMIP then
    (X86EMUL_OKAY, { v with vmcb := { v.vmcb with lastintfromip := msr_content } })
  else if ecx = MSR_IA32_LASTINTTOIP then
    (X86EMUL_OKAY, { v with vmcb := { v.vmcb with lastinttoip := msr_content } })
  else
    let r := long_mode_do_msr_write env v regs
    match r.1 with
    | handler_return.HNDL_exception_raised => (X86EMUL_EXCEPTION, r.2)
    | _ => (X86EMUL_OKAY, r.2)

/-- `svm_do_msr_access`: dispatch on `exitinfo1` (0 = read), then advance
the instruction pointer only on `X86EMUL_OKAY`. -/
def svm_do_msr_access (env : msr_env) (v : vcpu)
    (regs : cpu_user_regs) : vcpu × cpu_user_regs :=
  if v.vmcb.exitinfo1 = 0 then
    let r := svm_msr_read_intercept env v regs
    if r.1 = X86EMUL_OKAY then
      __update_guest_eip r.2.1 r.2.2 env.rdmsr_inst_len
    else (r.2.1, r.2.2)
  else
    let r := svm_msr_write_intercept env v regs
    if r.1 = X86EMUL_OKAY then
      __update_guest_eip r.2 regs env.wrmsr_inst_len
    else (r.2, regs)

/-! ### HLT intercept -/

/-- `svm_vmexit_do_hlt`.  `inst_len` is the external decoder's result for
the HLT instruction; `intack_pending` models
`intack.source != hvm_intsrc_none` and `intack_blocked` models
`hvm_interrupt_blocked(current, intack)`.  The returned `Bool` is true
exactly when `hvm_hlt` is reached (the core is idled). -/
def svm_vmexit_do_hlt (curr : vcpu) (regs : cpu_user_regs)
    (inst_len : Nat) (intack_pending intack_blocked : Bool) :
    vcpu × cpu_user_regs × Bool :=
  if inst_len = 0 then (curr, regs, false)
  else
    let r := __update_guest_eip curr regs inst_len
    if r.1.vmcb.eventinj.v || (intack_pending && !intack_blocked) then
      (r.1, r.2, false)
    else
      (r.1, r.2, true)

/-! ### Concrete base states for witnesses and counterexamples -/

def zeroEventinj : eventinj_t :=
  { vector := 0, type := 0, ev := false, resvd1 := 0, v := false,
    errorcode := 0 }

def zeroVMCB : vmcb_struct :=
  { cr0 := 0, cr2 := 0, cr3 := 0, cr4 := 0, efer := 0, dr6 := 0, dr7 := 0,
    dr_intercepts := 0, exception_intercepts := 0, eventinj := zeroEventinj,
    interrupt_shadow := 0, sysenter_cs := 0, sysenter_esp := 0,
    sysenter_eip := 0, np_enable := 0, g_pat := 0, h_cr3 := 0,
    exitinfo1 := 0, exitinfo2 := 0, debugctlmsr := 0, lastbranchfromip := 0,
    lastbranchtoip := 0, lastintfromip := 0, lastinttoip := 0,
    lbr_control_enable := false }

def zeroVCPU : vcpu :=
  { vmcb := zeroVMCB, guest_cr0 := 0, guest_cr2 := 0, guest_cr3 := 0,
    guest_cr4 := 0, hw_cr3 := 0, guest_efer := 0, guest_table := 0,
    flag_dr_dirty := 0, debugreg0 := 0, debugreg1 := 0, debugreg2 := 0,
    debugreg3 := 0, debugreg6 := 0, debugreg7 := 0, hw_dr0 := 0,
    hw_dr1 := 0, hw_dr2 := 0, hw_dr3 := 0, fpu_setup := false,
    is_current := false, hap := false, crashed := false,
    msr_intercept_disabled := [] }

def zeroRegs : cpu_user_regs :=
  { eip := 0, eflags := 0, eax := 0, ebx := 0, ecx := 0, edx := 0,
    error_code := 0 }

def zeroHwCpu : hvm_hw_cpu :=
  { cr0 := 0, cr2 := 0, cr3 := 0, cr4 := 0, sysenter_cs := 0,
    sysenter_esp := 0, sysenter_eip := 0, pending_event := 0,
    error_code := 0 }

/-- A vcpu whose injection slot holds a pending general-protection
hardware exception with error code 5. -/
def pendingGPvcpu : vcpu :=
  { zeroVCPU with vmcb := { zeroVMCB with eventinj :=
      { vector := 13, type := 3, ev := true, resvd1 := 0, v := true,
        errorcode := 5 } } }

/-! ### Helper lemmas -/

/-- The C idiom `x & (1 << i)` is nonzero exactly when bit `i` is set. -/
theorem land_two_pow_ne_zero (x i : Nat) :
    (x &&& 2 ^ i ≠ 0) ↔ x.testBit i = true := by
  rw [Nat.and_two_pow]
  cases h : x.testBit i <;> simp

/-! ### Claim theorems -/

/-- Claim C1: with `cr = 0` and hardware-assisted paging off,
`svm_update_guest_cr` always sets the paging-enable (bit 31) and
write-protect (bit 16) bits in the VMCB's CR0, whatever the canonical
CR0 value is. -/
theorem C1_cr0_forces_pg_wp (hvm_cr4_host_mask : Nat) (v : vcpu)
    (h : v.hap = false) :
    (svm_update_guest_cr hvm_cr4_host_mask v 0).vmcb.cr0.testBit 31 = true ∧
    (svm_update_guest_cr hvm_cr4_host_mask v 0).vmcb.cr0.testBit 16 = true := by
  have h31 : (X86_CR0_PG ||| X86_CR0_WP).testBit 31 = true := by decide
  have h16 : (X86_CR0_PG ||| X86_CR0_WP).testBit 16 = true := by decide
  simp [svm_update_guest_cr, h, Nat.testBit_or, h31, h16]

/-- Witness for C1 at a concrete state (canonical CR0 has PG and WP
clear, hardware-assisted paging off). -/
theorem C1_witness :
    zeroVCPU.hap = false ∧
    ((svm_update_guest_cr 0 zeroVCPU 0).vmcb.cr0.testBit 31 = true ∧
     (svm_update_guest_cr 0 zeroVCPU 0).vmcb.cr0.testBit 16 = true) :=
  ⟨rfl, C1_cr0_forces_pg_wp 0 zeroVCPU rfl⟩

/-- Counterexample for C4 as stated: with hardware-assisted paging on,
host mask `0x2060` (VMXE|PAE|MCE) and canonical CR4 = PAE, the hardware
CR4 comes out as `0x2060`: its PAE bit (bit 5) is SET, and it differs
from `canonical AND mask = 0x20`.  The code ORs the mask in; it does not
AND against it, and under HAP it only removes PAE from the mask, not
from the result. -/
theorem C4_counterexample :
    (svm_update_guest_cr 0x2060 { zeroVCPU with hap := true, guest_cr4 := 0x20 }
      4).vmcb.cr4.testBit 5 = true ∧
    (svm_update_guest_cr 0x2060 { zeroVCPU with hap := true, guest_cr4 := 0x20 }
      4).vmcb.cr4 ≠ 0x20 &&& 0x2060 := by
  constructor
  · decide
  · decide

/-- Claim C4 (amended): with `cr = 4` the hardware CR4 is the
host-mandated mask ORed into the canonical value; under hardware-assisted
paging the PAE bit is first removed from the *mask*, so the PAE bit of
the result equals the canonical PAE bit, and every other (64-bit) bit is
the OR of mask and canonical. -/
theorem C4_cr4_or_mask (hvm_cr4_host_mask : Nat) (v : vcpu) :
    (v.hap = false →
      ∀ i, (svm_update_guest_cr hvm_cr4_host_mask v 4).vmcb.cr4.testBit i =
        (hvm_cr4_host_mask.testBit i || v.guest_cr4.testBit i)) ∧
    (v.hap = true →
      ((svm_update_guest_cr hvm_cr4_host_mask v 4).vmcb.cr4.testBit 5 =
        v.guest_cr4.testBit 5) ∧
      ∀ i, i ≠ 5 → i < 64 →
        (svm_update_guest_cr hvm_cr4_host_mask v 4).vmcb.cr4.testBit i =
          (hvm_cr4_host_mask.testBit i || v.guest_cr4.testBit i)) := by
  refine ⟨fun h => ?_, fun h => ⟨?_, fun i h5 h64 => ?_⟩⟩
  · intro i
    simp [svm_update_guest_cr, h, Nat.testBit_or]
  · have hb : (not64 X86_CR4_PAE).testBit 5 = false := by decide
    simp [svm_update_guest_cr, h, Nat.testBit_or, Nat.testBit_and, hb]
  · have hb : (not64 X86_CR4_PAE).testBit i = true := by
      simp only [not64, X86_CR4_PAE, Nat.testBit_xor,
        Nat.testBit_two_pow_sub_one]
      have h2 : (0x20 : Nat) = 2 ^ 5 := by norm_num
      have h5' : ¬(5 = i) := fun hh => h5 hh.symm
      rw [h2, Nat.testBit_two_pow]
      simp [h64, h5']
    simp [svm_update_guest_cr, h, Nat.testBit_or, Nat.testBit_and, hb]

/-- Witness for C4 (amended) at a concrete state: hap on, mask
`0x2060`, canonical CR4 = `0x20`; bit 5 of the result equals the
canonical PAE bit, and bit 13 is the OR of the two. -/
theorem C4_witness :
    ((svm_update_guest_cr 0x2060 { zeroVCPU with hap := true, guest_cr4 := 0x20 }
       4).vmcb.cr4.testBit 5 =
      ({ zeroVCPU with hap := true, guest_cr4 := 0x20 } : vcpu).guest_cr4.testBit 5) ∧
    ((svm_update_guest_cr 0x2060 { zeroVCPU with hap := true, guest_cr4 := 0x20 }
       4).vmcb.cr4.testBit 13 =
      ((0x2060 : Nat).testBit 13 ||
       ({ zeroVCPU with hap := true, guest_cr4 := 0x20 } : vcpu).guest_cr4.testBit 13)) :=
  ⟨((C4_cr4_or_mask 0x2060 _).2 rfl).1,
   ((C4_cr4_or_mask 0x2060 _).2 rfl).2 13 (by decide) (by decide)⟩

/-- Counterexample for C5 as stated: for a canonical EFER with only LMA
set (`0x400`), `svm_update_guest_efer` produces a hardware EFER whose
long-mode-enable bit (bit 8) is SET: the code re-enables LME whenever
the (masked) value still has LMA set. -/
theorem C5_counterexample :
    (svm_update_guest_efer { zeroVCPU with guest_efer := 0x400 }).vmcb.efer.testBit 8
      = true := by decide

/-- Claim C5 (amended): after `svm_update_guest_efer` the hardware EFER
always has the SVME bit (bit 12) set, and its LME bit (bit 8) equals the
canonical value's LMA bit (bit 10): LME is cleared first but re-forced on
exactly when LMA is set. -/
theorem C5_efer_svme_lme (v : vcpu) :
    (svm_update_guest_efer v).vmcb.efer.testBit 12 = true ∧
    (svm_update_guest_efer v).vmcb.efer.testBit 8 = v.guest_efer.testBit 10 := by
  have hm12 : (not64 EFER_LME).testBit 12 = true := by decide
  have hm8 : (not64 EFER_LME).testBit 8 = false := by decide
  have hm10 : (not64 EFER_LME).testBit 10 = true := by decide
  have hs12 : (EFER_SVME).testBit 12 = true := by decide
  have hs10 : (EFER_SVME).testBit 10 = false := by decide
  have hL12 : (EFER_LME).testBit 12 = false := by decide
  have hL8 : (EFER_LME).testBit 8 = true := by decide
  have hgoal : (svm_update_guest_efer v).vmcb.efer =
      (if ((v.guest_efer ||| EFER_SVME) &&& not64 EFER_LME) &&& EFER_LMA ≠ 0
       then ((v.guest_efer ||| EFER_SVME) &&& not64 EFER_LME) ||| EFER_LME
       else (v.guest_efer ||| EFER_SVME) &&& not64 EFER_LME) := rfl
  rw [hgoal]
  have e12 : (((v.guest_efer ||| EFER_SVME) &&& not64 EFER_LME)).testBit 12 = true := by
    simp [Nat.testBit_and, Nat.testBit_or, hs12, hm12]
  have e8 : (((v.guest_efer ||| EFER_SVME) &&& not64 EFER_LME)).testBit 8 = false := by
    simp [Nat.testBit_and, hm8]
  have e10 : (((v.guest_efer ||| EFER_SVME) &&& not64 EFER_LME)).testBit 10 =
      v.guest_efer.testBit 10 := by
    simp [Nat.testBit_and, Nat.testBit_or, hs10, hm10]
  have hcond : (((v.guest_efer ||| EFER_SVME) &&& not64 EFER_LME) &&& EFER_LMA ≠ 0)
      ↔ v.guest_efer.testBit 10 = true := by
    have hLMA : (EFER_LMA : Nat) = 2 ^ 10 := by decide
    rw [hLMA, land_two_pow_ne_zero, e10]
  by_cases hc : ((v.guest_efer ||| EFER_SVME) &&& not64 EFER_LME) &&& EFER_LMA ≠ 0
  · rw [if_pos hc]
    have h10 : v.guest_efer.testBit 10 = true := hcond.mp hc
    constructor
    · simp [Nat.testBit_or, e12]
    · simp [Nat.testBit_or, e8, hL8, h10]
  · rw [if_neg hc]
    have h10 : v.guest_efer.testBit 10 = false := by
      cases h : v.guest_efer.testBit 10
      · rfl
      · exact absurd (hcond.mpr h) hc
    rw [h10]
    exact ⟨e12, e8⟩

/-- Claim C10: `svm_save_dr` is a no-op when the dirty flag is clear and
otherwise clears the flag while raising every debug-register intercept;
`__restore_debug_registers` is a no-op when the flag is set and otherwise
sets the flag while clearing every intercept; hence both preserve the
invariant "flag nonzero iff `dr_intercepts = 0`". -/
theorem C10_dr_dirty_invariant (v : vcpu) :
    (v.flag_dr_dirty = 0 → svm_save_dr v = v) ∧
    (v.flag_dr_dirty ≠ 0 →
      (svm_save_dr v).flag_dr_dirty = 0 ∧
      (svm_save_dr v).vmcb.dr_intercepts = 2 ^ 32 - 1) ∧
    (v.flag_dr_dirty ≠ 0 → __restore_debug_registers v = v) ∧
    (v.flag_dr_dirty = 0 →
      (__restore_debug_registers v).flag_dr_dirty = 1 ∧
      (__restore_debug_registers v).vmcb.dr_intercepts = 0) ∧
    ((v.flag_dr_dirty ≠ 0 ↔ v.vmcb.dr_intercepts = 0) →
      (((svm_save_dr v).flag_dr_dirty ≠ 0 ↔
        (svm_save_dr v).vmcb.dr_intercepts = 0) ∧
       ((__restore_debug_registers v).flag_dr_dirty ≠ 0 ↔
        (__restore_debug_registers v).vmcb.dr_intercepts = 0))) := by
  refine ⟨fun h => ?_, fun h => ?_, fun h => ?_, fun h => ?_, fun hinv => ?_⟩
  · simp [svm_save_dr, h]
  · constructor <;> simp [svm_save_dr, h]
  · simp [__restore_debug_registers, h]
  · constructor <;> simp [__restore_debug_registers, h]
  · constructor
    · by_cases h : v.flag_dr_dirty = 0
      · simpa [svm_save_dr, h] using hinv
      · simp [svm_save_dr, h]
    · by_cases h : v.flag_dr_dirty = 0
      · simp [__restore_debug_registers, h]
      · simpa [__restore_debug_registers, h] using hinv

/-- Witness for C10 at a concrete state satisfying the invariant (flag
clear, all intercepts raised). -/
theorem C10_witness :
    svm_save_dr { zeroVCPU with vmcb := { zeroVMCB with dr_intercepts := 0xffffffff } } =
      { zeroVCPU with vmcb := { zeroVMCB with dr_intercepts := 0xffffffff } } ∧
    ((__restore_debug_registers
        { zeroVCPU with vmcb := { zeroVMCB with dr_intercepts := 0xffffffff } }).flag_dr_dirty ≠ 0 ↔
     (__restore_debug_registers
        { zeroVCPU with vmcb := { zeroVMCB with dr_intercepts := 0xffffffff } }).vmcb.dr_intercepts = 0) :=
  ⟨(C10_dr_dirty_invariant _).1 rfl,
   ((C10_dr_dirty_invariant _).2.2.2.2 (by decide)).2⟩

/-- Claim C3: a restore context with `pending_valid` set whose pending
type is 1, or above 6, or whose reserved field is nonzero, makes
`svm_vmcb_restore` return `-EINVAL` with the vcpu (VMCB event-injection
slot and hardware control registers included) completely unchanged. -/
theorem C3_restore_rejects_bad_pending (needs_reinj : Nat → Nat → Bool)
    (p2m : Nat → Option Nat) (phys_table_paddr hvm_cr4_host_mask : Nat)
    (v : vcpu) (c : hvm_hw_cpu)
    (hv : c.pending_valid = true)
    (hbad : c.pending_type = 1 ∨ 6 < c.pending_type ∨ c.pending_reserved ≠ 0) :
    svm_vmcb_restore needs_reinj p2m phys_table_paddr hvm_cr4_host_mask v c =
      (-EINVAL, v) := by
  unfold svm_vmcb_restore
  rw [if_pos ⟨hv, hbad⟩]

/-- Witness for C3: a snapshot with `pending_valid = 1` and type code 1
(raw pending-event word `0x80000100`) is rejected without mutation. -/
theorem C3_witness :
    svm_vmcb_restore (fun _ _ => true) (fun _ => none) 0 0 zeroVCPU
      { zeroHwCpu with pending_event := 0x80000100 } = (-EINVAL, zeroVCPU) :=
  C3_restore_rejects_bad_pending (fun _ _ => true) (fun _ => none) 0 0
    zeroVCPU { zeroHwCpu with pending_event := 0x80000100 }
    (by decide) (Or.inl (by decide))

/-- Counterexample for C2 as stated: a pending general-protection fault
(contributory) followed by an injected page fault does become a double
fault, but the resulting slot *delivers an error code*: its
has-error-code bit is set (with error-code value 0), not absent as the
claim's "no error code delivered" asserts. -/
theorem C2_counterexample :
    (svm_inject_exception pendingGPvcpu zeroRegs TRAP_page_fault 5 0).vmcb.eventinj.vector
        = TRAP_double_fault ∧
    (svm_inject_exception pendingGPvcpu zeroRegs TRAP_page_fault 5 0).vmcb.eventinj.ev
        = true := by
  constructor
  · decide
  · decide

/-- Claim C2 (amended): if the slot holds a valid pending hardware
exception and the escalation table combines the pending vector with the
newly injected vector into a double fault, the slot afterwards holds
exactly one pending double-fault hardware exception whose error code is
zero (the previous error code is dropped and a zero error code is
delivered). -/
theorem C2_double_fault_escalation (curr : vcpu) (regs : cpu_user_regs)
    (trapnr : Nat) (errcode : Int) (cr2 : Nat)
    (hv : curr.vmcb.eventinj.v = true)
    (ht : curr.vmcb.eventinj.type = X86_EVENTTYPE_HW_EXCEPTION)
    (hc : hvm_combine_hw_exceptions curr.vmcb.eventinj.vector trapnr =
      TRAP_double_fault) :
    (svm_inject_exception curr regs trapnr errcode cr2).vmcb.eventinj =
      { vector := TRAP_double_fault, type := X86_EVENTTYPE_HW_EXCEPTION,
        ev := true, resvd1 := 0, v := true, errorcode := 0 } := by
  unfold svm_inject_exception
  simp [hv, ht, hc, TRAP_double_fault, TRAP_page_fault, TRAP_debug,
    X86_EVENTTYPE_HW_EXCEPTION, intToU32, HVM_DELIVER_NO_ERROR_CODE]

/-- Witness for C2 (amended): pending general-protection fault, inject a
page fault with error code 5; the slot becomes a double fault with a
zero error code. -/
theorem C2_witness :
    (svm_inject_exception pendingGPvcpu zeroRegs 14 5 0).vmcb.eventinj =
      { vector := 8, type := 3, ev := true, resvd1 := 0, v := true,
        errorcode := 0 } :=
  C2_double_fault_escalation pendingGPvcpu zeroRegs 14 5 0 rfl rfl (by decide)

/-- Unpacking the low 32 bits of a packed event descriptor recovers its
bitfields (for a valid event). -/
theorem bytes_fields (e : eventinj_t) (hv : e.v = true) :
    (e.bytes % 0x100000000) % 0x100 = e.vector % 0x100 ∧
    (e.bytes % 0x100000000) / 0x100 % 8 = e.type % 8 ∧
    (e.bytes % 0x100000000) / 0x800 % 2 = cond e.ev 1 0 ∧
    (e.bytes % 0x100000000) / 0x80000000 % 2 = 1 := by
  obtain ⟨vec, ty, ev, rs, vv, ec⟩ := e
  simp only at hv
  subst hv
  cases ev <;>
    (simp only [eventinj_t.bytes, cond_true, cond_false]; omega)

/-- Counterexample for C6 as stated: capturing state with a valid
reinjectable event in the slot leaves the slot's validity bit SET —
`svm_vmcb_save` records the event but never writes the VMCB, so no
clearing happens. -/
theorem C6_counterexample :
    ((svm_vmcb_save (fun _ _ => true) pendingGPvcpu zeroHwCpu).1).vmcb.eventinj.v
      = true := by decide

/-- Claim C6 (amended): `svm_vmcb_save` returns 1 and leaves the vcpu —
the injection slot included — entirely unchanged.  When the slot holds a
valid event that the external predicate says needs reinjection, the
persisted record receives the packed event (vector, type, has-error-code
bit, validity bit) in `pending_event` and the error code in
`error_code`; otherwise both persisted fields are zero. -/
theorem C6_save_records_event (needs_reinj : Nat → Nat → Bool) (v : vcpu)
    (c : hvm_hw_cpu) :
    (svm_vmcb_save needs_reinj v c).1 = v ∧
    (svm_vmcb_save needs_reinj v c).2.2 = 1 ∧
    (v.vmcb.eventinj.v = true →
      needs_reinj v.vmcb.eventinj.type v.vmcb.eventinj.vector = true →
      ((svm_vmcb_save needs_reinj v c).2.1.pending_event =
         v.vmcb.eventinj.bytes % 0x100000000 ∧
       (svm_vmcb_save needs_reinj v c).2.1.pending_valid = true ∧
       (svm_vmcb_save needs_reinj v c).2.1.pending_vector =
         v.vmcb.eventinj.vector % 0x100 ∧
       (svm_vmcb_save needs_reinj v c).2.1.pending_type =
         v.vmcb.eventinj.type % 8 ∧
       (svm_vmcb_save needs_reinj v c).2.1.pending_error_valid =
         cond v.vmcb.eventinj.ev 1 0 ∧
       (svm_vmcb_save needs_reinj v c).2.1.error_code =
         v.vmcb.eventinj.errorcode % 0x100000000)) ∧
    ((v.vmcb.eventinj.v = false ∨
        needs_reinj v.vmcb.eventinj.type v.vmcb.eventinj.vector = false) →
      ((svm_vmcb_save needs_reinj v c).2.1.pending_event = 0 ∧
       (svm_vmcb_save needs_reinj v c).2.1.error_code = 0)) := by
  refine ⟨rfl, ?_, fun hv hr => ?_, fun hno => ?_⟩
  · simp only [svm_vmcb_save]
  · have hcond : (v.vmcb.eventinj.v &&
        needs_reinj v.vmcb.eventinj.type v.vmcb.eventinj.vector) = true := by
      rw [hv, hr]; rfl
    obtain ⟨f1, f2, f3, f4⟩ := bytes_fields v.vmcb.eventinj hv
    refine ⟨?_, ?_, ?_, ?_, ?_, ?_⟩ <;>
      simp only [svm_vmcb_save, hcond, if_true, hvm_hw_cpu.pending_valid,
        hvm_hw_cpu.pending_vector, hvm_hw_cpu.pending_type,
        hvm_hw_cpu.pending_error_valid, f1, f2, f3, f4]
    rfl
  · have hcond : (v.vmcb.eventinj.v &&
        needs_reinj v.vmcb.eventinj.type v.vmcb.eventinj.vector) = false := by
      rcases hno with h | h <;> simp [h]
    simp only [svm_vmcb_save, hcond]
    exact ⟨rfl, rfl⟩

/-- Witness for C6 (amended) on a state with a pending reinjectable
general-protection fault: the persisted record reports a valid pending
event with vector 13 and the slot's error code, and the vcpu itself is
returned unchanged. -/
theorem C6_witness :
    (svm_vmcb_save (fun _ _ => true) pendingGPvcpu zeroHwCpu).1 = pendingGPvcpu ∧
    (svm_vmcb_save (fun _ _ => true) pendingGPvcpu zeroHwCpu).2.1.pending_valid = true ∧
    (svm_vmcb_save (fun _ _ => true) pendingGPvcpu zeroHwCpu).2.1.pending_vector = 13 ∧
    (svm_vmcb_save (fun _ _ => true) pendingGPvcpu zeroHwCpu).2.1.error_code = 5 :=
  ⟨(C6_save_records_event (fun _ _ => true) pendingGPvcpu zeroHwCpu).1,
   ((C6_save_records_event (fun _ _ => true) pendingGPvcpu zeroHwCpu).2.2.1
      rfl rfl).2.1,
   ((C6_save_records_event (fun _ _ => true) pendingGPvcpu zeroHwCpu).2.2.1
      rfl rfl).2.2.1,
   ((C6_save_records_event (fun _ _ => true) pendingGPvcpu zeroHwCpu).2.2.1
      rfl rfl).2.2.2.2.2⟩

/-- `svm_inject_exception` never touches the interrupt-shadow field. -/
theorem inject_preserves_interrupt_shadow (curr : vcpu) (regs : cpu_user_regs)
    (trapnr : Nat) (errcode : Int) (cr2 : Nat) :
    (svm_inject_exception curr regs trapnr errcode cr2).vmcb.interrupt_shadow =
      curr.vmcb.interrupt_shadow := by
  simp only [svm_inject_exception, __restore_debug_registers]
  split_ifs <;> rfl

/-- `svm_inject_exception` never calls `domain_crash`. -/
theorem inject_preserves_crashed (curr : vcpu) (regs : cpu_user_regs)
    (trapnr : Nat) (errcode : Int) (cr2 : Nat) :
    (svm_inject_exception curr regs trapnr errcode cr2).crashed =
      curr.crashed := by
  simp only [svm_inject_exception, __restore_debug_registers]
  split_ifs <;> rfl

/-- Injecting into an empty slot installs exactly the requested hardware
exception in the slot (whatever the vector, the escalation path is not
taken). -/
theorem inject_into_empty_slot (curr : vcpu) (regs : cpu_user_regs)
    (trapnr : Nat) (errcode : Int) (cr2 : Nat)
    (hv : curr.vmcb.eventinj.v = false) :
    (svm_inject_exception curr regs trapnr errcode cr2).vmcb.eventinj =
      { vector := trapnr % 0x100, type := X86_EVENTTYPE_HW_EXCEPTION,
        ev := decide (errcode ≠ HVM_DELIVER_NO_ERROR_CODE), resvd1 := 0,
        v := true, errorcode := intToU32 errcode } := by
  simp only [svm_inject_exception, __restore_debug_registers, hv,
    Bool.false_and, Bool.false_eq_true, if_false]
  split_ifs <;> rfl

/-- Injecting a non-page-fault, non-debug vector into an empty slot
changes nothing but the slot. -/
theorem inject_empty_slot_state (curr : vcpu) (regs : cpu_user_regs)
    (trapnr : Nat) (errcode : Int) (cr2 : Nat)
    (hv : curr.vmcb.eventinj.v = false)
    (hpf : trapnr ≠ TRAP_page_fault)
    (hdb : trapnr ≠ TRAP_debug) :
    svm_inject_exception curr regs trapnr errcode cr2 =
      { curr with vmcb := { curr.vmcb with eventinj :=
        { vector := trapnr % 0x100, type := X86_EVENTTYPE_HW_EXCEPTION,
          ev := decide (errcode ≠ HVM_DELIVER_NO_ERROR_CODE), resvd1 := 0,
          v := true, errorcode := intToU32 errcode } } } := by
  simp [svm_inject_exception, hv, hpf, hdb]

/-- On a bad length `__update_guest_eip` only crashes the domain. -/
theorem update_eip_crash (v : vcpu) (regs : cpu_user_regs) (len : Nat)
    (h : len = 0 ∨ 15 < len) :
    __update_guest_eip v regs len = ({ v with crashed := true }, regs) := by
  simp only [__update_guest_eip]
  rw [if_pos h]

/-- On a good length the returned register file advances the instruction
pointer and masks the resume flag, in both trap-flag branches. -/
theorem update_eip_regs (v : vcpu) (regs : cpu_user_regs) (len : Nat)
    (h : ¬(len = 0 ∨ 15 < len)) :
    (__update_guest_eip v regs len).2 =
      { regs with
        eip := (regs.eip + len) % 2 ^ 64
        eflags := regs.eflags &&& not64 X86_EFLAGS_RF } := by
  simp only [__update_guest_eip]
  rw [if_neg h]
  split_ifs <;> rfl

/-- On a good length the interrupt shadow is cleared, in both branches. -/
theorem update_eip_shadow (v : vcpu) (regs : cpu_user_regs) (len : Nat)
    (h : ¬(len = 0 ∨ 15 < len)) :
    (__update_guest_eip v regs len).1.vmcb.interrupt_shadow = 0 := by
  simp only [__update_guest_eip]
  rw [if_neg h]
  split_ifs with hTF
  · rw [inject_preserves_interrupt_shadow]
  · rfl

/-- On a good length the domain is not crashed, in both branches. -/
theorem update_eip_crashed (v : vcpu) (regs : cpu_user_regs) (len : Nat)
    (h : ¬(len = 0 ∨ 15 < len)) :
    (__update_guest_eip v regs len).1.crashed = v.crashed := by
  simp only [__update_guest_eip]
  rw [if_neg h]
  split_ifs with hTF
  · rw [inject_preserves_crashed]
  · rfl

/-- Masking the resume flag does not change the trap-flag bit. -/
theorem eflags_mask_rf_tf (e : Nat) :
    (e &&& not64 X86_EFLAGS_RF).testBit 8 = e.testBit 8 := by
  have h8 : (not64 X86_EFLAGS_RF).testBit 8 = true := by decide
  simp [Nat.testBit_and, h8]

/-- With the trap flag set and an empty slot, a good-length
`__update_guest_eip` installs a debug exception with no error code. -/
theorem update_eip_eventinj_tf (v : vcpu) (regs : cpu_user_regs) (len : Nat)
    (h : ¬(len = 0 ∨ 15 < len))
    (hTF : regs.eflags.testBit 8 = true)
    (hv : v.vmcb.eventinj.v = false) :
    (__update_guest_eip v regs len).1.vmcb.eventinj =
      { vector := TRAP_debug, type := X86_EVENTTYPE_HW_EXCEPTION,
        ev := false, resvd1 := 0, v := true, errorcode := 0xffffffff } := by
  have hcond : (regs.eflags &&& not64 X86_EFLAGS_RF) &&& X86_EFLAGS_TF ≠ 0 := by
    have h28 : (X86_EFLAGS_TF : Nat) = 2 ^ 8 := by decide
    rw [h28, land_two_pow_ne_zero, eflags_mask_rf_tf]
    exact hTF
  simp only [__update_guest_eip]
  rw [if_neg h, if_pos hcond]
  rw [inject_into_empty_slot]
  · decide
  · exact hv

/-- With the trap flag clear, a good-length `__update_guest_eip` leaves
the injection slot alone. -/
theorem update_eip_eventinj_no_tf (v : vcpu) (regs : cpu_user_regs)
    (len : Nat) (h : ¬(len = 0 ∨ 15 < len))
    (hTF : regs.eflags.testBit 8 = false) :
    (__update_guest_eip v regs len).1.vmcb.eventinj = v.vmcb.eventinj := by
  have hcond : ¬((regs.eflags &&& not64 X86_EFLAGS_RF) &&& X86_EFLAGS_TF ≠ 0) := by
    have h28 : (X86_EFLAGS_TF : Nat) = 2 ^ 8 := by decide
    rw [h28, land_two_pow_ne_zero, eflags_mask_rf_tf, hTF]
    simp
  simp only [__update_guest_eip]
  rw [if_neg h, if_neg hcond]

/-- Claim C9: `__update_guest_eip` with a length of 0 or above 15 crashes
the domain and leaves the registers (instruction pointer included)
unchanged; with a length in 1..15 it advances the instruction pointer by
exactly that length, clears the resume flag (eflags bit 16) and the
interrupt shadow, does not crash, and, when the trap flag (eflags bit 8)
is set, installs a debug exception in the (previously empty)
pending-event slot, leaving the slot alone when the trap flag is
clear. -/
theorem C9_update_guest_eip (v : vcpu) (regs : cpu_user_regs) (len : Nat) :
    ((len = 0 ∨ 15 < len) →
      __update_guest_eip v regs len = ({ v with crashed := true }, regs)) ∧
    (1 ≤ len → len ≤ 15 →
      ((regs.eip + len < 2 ^ 64 →
         (__update_guest_eip v regs len).2.eip = regs.eip + len) ∧
       (__update_guest_eip v regs len).2.eflags.testBit 16 = false ∧
       (__update_guest_eip v regs len).1.vmcb.interrupt_shadow = 0 ∧
       (__update_guest_eip v regs len).1.crashed = v.crashed ∧
       (regs.eflags.testBit 8 = true → v.vmcb.eventinj.v = false →
         (__update_guest_eip v regs len).1.vmcb.eventinj =
           { vector := TRAP_debug, type := X86_EVENTTYPE_HW_EXCEPTION,
             ev := false, resvd1 := 0, v := true,
             errorcode := 0xffffffff }) ∧
       (regs.eflags.testBit 8 = false →
         (__update_guest_eip v regs len).1.vmcb.eventinj =
           v.vmcb.eventinj))) := by
  refine ⟨fun h => update_eip_crash v regs len h, fun h1 h2 => ?_⟩
  have h : ¬(len = 0 ∨ 15 < len) := by omega
  refine ⟨fun hlt => ?_, ?_, update_eip_shadow v regs len h,
    update_eip_crashed v regs len h,
    fun hTF hv => update_eip_eventinj_tf v regs len h hTF hv,
    fun hTF => update_eip_eventinj_no_tf v regs len h hTF⟩
  · rw [update_eip_regs v regs len h]
    exact Nat.mod_eq_of_lt hlt
  · rw [update_eip_regs v regs len h]
    have h16 : (not64 X86_EFLAGS_RF).testBit 16 = false := by decide
    simp [Nat.testBit_and, h16]

/-- Witness for C9: length 2, trap flag set, empty slot. -/
theorem C9_witness :
    (__update_guest_eip zeroVCPU { zeroRegs with eflags := 0x100 } 2).2.eip = 2 ∧
    (__update_guest_eip zeroVCPU { zeroRegs with eflags := 0x100 } 2).1.vmcb.eventinj =
      { vector := TRAP_debug, type := X86_EVENTTYPE_HW_EXCEPTION, ev := false,
        resvd1 := 0, v := true, errorcode := 0xffffffff } :=
  ⟨((C9_update_guest_eip zeroVCPU { zeroRegs with eflags := 0x100 } 2).2
      (by decide) (by decide)).1 (by decide),
   ((C9_update_guest_eip zeroVCPU { zeroRegs with eflags := 0x100 } 2).2
      (by decide) (by decide)).2.2.2.2.1 (by decide) rfl⟩

/-- Claim C7: on a halt exit with a decodable length (1..15) the handler
advances the instruction pointer past the instruction; then, if the
(post-advance) injection slot holds a valid event or an unblocked
interrupt source is pending, the core is not idled, and when neither
wake condition exists the core is idled. -/
theorem C7_hlt_idles_only_without_wake (v : vcpu) (regs : cpu_user_regs)
    (len : Nat) (intack_pending intack_blocked : Bool)
    (h1 : 1 ≤ len) (h2 : len ≤ 15) :
    (svm_vmexit_do_hlt v regs len intack_pending intack_blocked).2.1.eip =
      (regs.eip + len) % 2 ^ 64 ∧
    ((svm_vmexit_do_hlt v regs len intack_pending
        intack_blocked).1.vmcb.eventinj.v = true →
      (svm_vmexit_do_hlt v regs len intack_pending intack_blocked).2.2 =
        false) ∧
    (intack_pending = true → intack_blocked = false →
      (svm_vmexit_do_hlt v regs len intack_pending intack_blocked).2.2 =
        false) ∧
    ((svm_vmexit_do_hlt v regs len intack_pending
        intack_blocked).1.vmcb.eventinj.v = false →
      (intack_pending = false ∨ intack_blocked = true) →
      (svm_vmexit_do_hlt v regs len intack_pending intack_blocked).2.2 =
        true) := by
  have h : ¬(len = 0 ∨ 15 < len) := by omega
  have hlen : ¬(len = 0) := by omega
  have hmain : svm_vmexit_do_hlt v regs len intack_pending intack_blocked =
      if ((__update_guest_eip v regs len).1.vmcb.eventinj.v ||
          (intack_pending && !intack_blocked)) = true
      then ((__update_guest_eip v regs len).1,
            (__update_guest_eip v regs len).2, false)
      else ((__update_guest_eip v regs len).1,
            (__update_guest_eip v regs len).2, true) := by
    simp only [svm_vmexit_do_hlt]
    rw [if_neg hlen]
  rw [hmain]
  by_cases hc : ((__update_guest_eip v regs len).1.vmcb.eventinj.v ||
      (intack_pending && !intack_blocked)) = true
  · rw [if_pos hc]
    refine ⟨?_, fun _ => rfl, fun _ _ => rfl, fun hv hd => ?_⟩
    · rw [update_eip_regs v regs len h]
    · rw [show ((__update_guest_eip v regs len).1,
          (__update_guest_eip v regs len).2,
          false).1 = (__update_guest_eip v regs len).1 from rfl] at hv
      rcases hd with hd | hd <;> simp [hv, hd] at hc
  · rw [if_neg hc]
    refine ⟨?_, fun hv => ?_, fun hip hib => ?_, fun _ _ => rfl⟩
    · rw [update_eip_regs v regs len h]
    · rw [show ((__update_guest_eip v regs len).1,
          (__update_guest_eip v regs len).2,
          true).1 = (__update_guest_eip v regs len).1 from rfl] at hv
      simp [hv] at hc
    · simp [hip, hib] at hc

/-- Witness for C7: halt of length 1 with nothing pending and no
interrupt source idles the core and advances the instruction pointer. -/
theorem C7_witness :
    (svm_vmexit_do_hlt zeroVCPU zeroRegs 1 false false).2.1.eip = 1 ∧
    (svm_vmexit_do_hlt zeroVCPU zeroRegs 1 false false).2.2 = true :=
  ⟨(C7_hlt_idles_only_without_wake zeroVCPU zeroRegs 1 false false
      (by decide) (by decide)).1,
   (C7_hlt_idles_only_without_wake zeroVCPU zeroRegs 1 false false
      (by decide) (by decide)).2.2.2 (by decide) (Or.inl rfl)⟩

/-- The event a `goto gpf` path installs into an empty slot: GP fault,
hardware exception, error code 0 delivered. -/
def gpEventinj : eventinj_t :=
  { vector := 13, type := 3, ev := true, resvd1 := 0, v := true,
    errorcode := 0 }

/-- A concrete external environment for the MSR paths: no hypervisor
registers, every raw read faults, `hvm_set_efer` succeeds, no LBR
capability, two-byte RDMSR/WRMSR encodings. -/
def zeroMsrEnv : msr_env :=
  { guest_time := 0
    apic_base := 0
    rdmsr_hypervisor_regs := fun _ => none
    rdmsr_safe := fun _ => none
    hvm_set_efer := fun v _ => (false, v)
    cpu_has_svm_lbrv := false
    rdmsr_inst_len := 2
    wrmsr_inst_len := 2 }

/-- A register file naming the host-save-address MSR. -/
def hsaveRegs : cpu_user_regs :=
  { zeroRegs with ecx := MSR_K8_VM_HSAVE_PA }

/-- Claim C8: a guest access to `MSR_K8_VM_HSAVE_PA` (any value, any
environment): the read intercept returns the exception status with the
register file untouched and only a general-protection fault installed in
the (empty) slot; the write intercept likewise; and `svm_do_msr_access`
does not advance the instruction pointer, since the result is not
`X86EMUL_OKAY`. -/
theorem C8_hsave_pa_always_faults (env : msr_env) (v : vcpu)
    (regs : cpu_user_regs)
    (hecx : regs.ecx = MSR_K8_VM_HSAVE_PA)
    (hempty : v.vmcb.eventinj.v = false) :
    ((svm_msr_read_intercept env v regs).1 = X86EMUL_EXCEPTION ∧
     (svm_msr_read_intercept env v regs).2.2 = regs ∧
     (svm_msr_read_intercept env v regs).2.1 =
       { v with vmcb := { v.vmcb with eventinj := gpEventinj } }) ∧
    ((svm_msr_write_intercept env v regs).1 = X86EMUL_EXCEPTION ∧
     (svm_msr_write_intercept env v regs).2 =
       { v with vmcb := { v.vmcb with eventinj := gpEventinj } }) ∧
    (svm_do_msr_access env v regs).2.eip = regs.eip := by
  have hinj : svm_inject_exception v regs TRAP_gp_fault 0 0 =
      { v with vmcb := { v.vmcb with eventinj := gpEventinj } } := by
    rw [inject_empty_slot_state v regs TRAP_gp_fault 0 0 hempty
      (by decide) (by decide)]
    rfl
  have hread : svm_msr_read_intercept env v regs =
      (X86EMUL_EXCEPTION, svm_inject_exception v regs TRAP_gp_fault 0 0,
       regs) := by
    simp [svm_msr_read_intercept, hecx, MSR_IA32_TSC, MSR_IA32_APICBASE,
      MSR_EFER, MSR_IA32_MC4_MISC, MSR_F10_MC4_MISC1, MSR_F10_MC4_MISC3,
      MSR_IA32_EBC_FREQUENCY_ID, MSR_K8_VM_HSAVE_PA]
  have hwrite : svm_msr_write_intercept env v regs =
      (X86EMUL_EXCEPTION, svm_inject_exception v regs TRAP_gp_fault 0 0) := by
    simp [svm_msr_write_intercept, hecx, MSR_IA32_TSC, MSR_IA32_APICBASE,
      MSR_K8_VM_HSAVE_PA]
  refine ⟨⟨?_, ?_, ?_⟩, ⟨?_, ?_⟩, ?_⟩
  · rw [hread]
  · rw [hread]
  · rw [hread]
    exact hinj
  · rw [hwrite]
  · rw [hwrite]
    exact hinj
  · by_cases hx : v.vmcb.exitinfo1 = 0
    · simp only [svm_do_msr_access, if_pos hx, hread]
      rw [if_neg (by decide)]
    · simp only [svm_do_msr_access, if_neg hx, hwrite]
      rw [if_neg (by decide)]

/-- Witness for C8: concrete environment, empty slot, `ecx` naming the
host-save-address register. -/
theorem C8_witness :
    ((svm_msr_read_intercept zeroMsrEnv zeroVCPU hsaveRegs).1 =
       X86EMUL_EXCEPTION ∧
     (svm_msr_read_intercept zeroMsrEnv zeroVCPU hsaveRegs).2.2 = hsaveRegs ∧
     (svm_msr_read_intercept zeroMsrEnv zeroVCPU hsaveRegs).2.1 =
       { zeroVCPU with vmcb := { zeroVCPU.vmcb with eventinj := gpEventinj } }) ∧
    ((svm_msr_write_intercept zeroMsrEnv zeroVCPU hsaveRegs).1 =
       X86EMUL_EXCEPTION ∧
     (svm_msr_write_intercept zeroMsrEnv zeroVCPU hsaveRegs).2 =
       { zeroVCPU with vmcb := { zeroVCPU.vmcb with eventinj := gpEventinj } }) ∧
    (svm_do_msr_access zeroMsrEnv zeroVCPU hsaveRegs).2.eip = hsaveRegs.eip :=
  C8_hsave_pa_always_faults zeroMsrEnv zeroVCPU hsaveRegs rfl rfl

end Svm
